import Mathlib

/-!
# go-bgfx bridge: a shallow embedding of `bridge.go`

The Go file is a thin cgo binding.  Every exported function marshals its
arguments and calls into the native bgfx library.  The embedding keeps

* the Go-side control flow (kind checks, length checks, index expressions,
  integer conversions, the C string copy of a name, the pointer check the Go
  runtime makes on the arguments of a cgo call), translated statement by
  statement, and
* the native library as a parameter (`Native`): its return values and its
  effect on Go-visible memory are arbitrary functions of the call history.

A run is a function from a `World` (memory and the log of native calls made so
far) to an outcome (normal return or Go panic) and the world at that point.
-/

namespace bgfx

/-! ## Machine integers -/

/-- Go conversion `C.uint32_t(x)` of a Go `int`: reduction modulo 2^32. -/
def toUint32 (x : Int) : Nat := (x % 4294967296).toNat

/-- Go conversion `C.uint16_t(x)` of a Go `int`: reduction modulo 2^16. -/
def toUint16 (x : Int) : Nat := (x % 65536).toNat

/-! ## Go values seen through `reflect` -/

/-- The kinds of `reflect.Kind`. -/
inductive Kind where
  | Invalid | Bool | Int | Int8 | Int16 | Int32 | Int64
  | Uint | Uint8 | Uint16 | Uint32 | Uint64 | Uintptr
  | Float32 | Float64 | Complex64 | Complex128
  | Array | Chan | Func | Interface | Map | Ptr | Slice | String | Struct
  | RawPointer
  deriving DecidableEq, Repr

/-- What `reflect.ValueOf(x)` exposes of an `interface{}` argument, as far as
`bridge.go` looks at it: `Kind()`, `Len()`, `Type().Elem().Size()` and
`Pointer()`.  The field `goPointers` says whether the Go memory block that
`Pointer()` points into stores a Go pointer (a slice of structs with a pointer
field, a slice of slices or strings, ...): that is what the Go runtime looks
for when the pointer is handed to a cgo call. -/
structure Value where
  kind : Kind
  len : Nat
  elemSize : Nat
  ptr : Nat
  goPointers : Bool := false
  deriving DecidableEq, Repr

/-- A Go `[]byte`: address of the backing array and length; the bytes
themselves live in the memory of the world. -/
structure ByteSlice where
  ptr : Nat
  len : Nat
  deriving DecidableEq, Repr

/-- A Go `[4]float32`, each component kept as its 32-bit pattern. -/
structure Float4 where
  x : Nat
  y : Nat
  z : Nat
  w : Nat
  deriving DecidableEq, Repr

/-! ## Native side -/

/-- The native `bgfx_vertex_decl_t` record. -/
structure bgfx_vertex_decl_t where
  hash : Nat
  stride : Nat
  offset : List Nat
  attributes : List Nat
  deriving DecidableEq, Repr

/-- Modelled from the spec: the Go type `VertexDecl` and its method `Stride`
are declared in a file of the repository that is not part of the sources at
hand; `bridge.go` only uses the field `decl` and `Stride()`.  The spec says the
stride is "the layout's total byte size per vertex record". -/
structure VertexDecl where
  decl : bgfx_vertex_decl_t
  deriving DecidableEq, Repr

/-- Modelled from the spec: `Stride()` reads the sealed layout's stride. -/
def VertexDecl.Stride (d : VertexDecl) : Int := (d.decl.stride : Int)

/-- One call into the native library, with the argument values as the C side
receives them. -/
inductive NativeCall where
  | bgfx_create_uniform (name : String) (typ : Nat) (num : Nat)
  | bgfx_destroy_uniform (h : Nat)
  | bgfx_vertex_pack (input : Float4) (normalized : Bool) (attrib : Nat)
      (decl : bgfx_vertex_decl_t) (data : Nat) (index : Nat)
  | bgfx_vertex_unpack (attrib : Nat) (decl : bgfx_vertex_decl_t) (data : Nat) (index : Nat)
  | bgfx_vertex_convert (destDecl : bgfx_vertex_decl_t) (destData : Nat)
      (srcDecl : bgfx_vertex_decl_t) (srcData : Nat) (num : Nat)
  | bgfx_copy (data : Nat) (size : Nat)
  | bgfx_create_texture (mem : Nat) (flags : Nat) (skip : Nat)
  deriving DecidableEq, Repr

/-- Go-visible memory: the byte stored at each address. -/
abbrev Memory := Nat → Nat

/-- The state a call runs in: memory and the native calls made so far, oldest first. -/
structure World where
  mem : Memory
  trace : List NativeCall

/-- The native library, a black box: what a call returns (handle, memory
reference) and what it writes to Go-visible memory or to an output array may
depend on everything it has been asked before. -/
structure Native where
  ret : List NativeCall → NativeCall → Memory → Nat
  effect : List NativeCall → NativeCall → Memory → Memory
  output : List NativeCall → NativeCall → Memory → Float4

/-- Perform one native call: log it, apply its memory effect, hand back its
return value. -/
def Native.call (N : Native) (c : NativeCall) (w : World) : Nat × World :=
  (N.ret w.trace c w.mem, { mem := N.effect w.trace c w.mem, trace := w.trace ++ [c] })

/-! ## Go panics and outcomes -/

/-- The value a Go panic carries: an error built by `errors.New`, the runtime
error of an index expression out of range, or the runtime error of the cgo
pointer check ("cgo argument has Go pointer to Go pointer"). -/
inductive PanicValue where
  | error (msg : String)
  | boundsError (index : Nat) (length : Nat)
  | cgoPointer
  deriving DecidableEq, Repr

/-- How a call ends. -/
inductive Outcome (α : Type) where
  | ok (a : α)
  | panic (p : PanicValue)
  deriving DecidableEq, Repr

/-- A finished run: the outcome and the world when the call returned or panicked. -/
structure Run (α : Type) where
  out : Outcome α
  world : World

/-- Go `&data[i]`: the address of element `i`, or a runtime panic when `i` is
not below the length. -/
def ByteSlice.addrOf (data : ByteSlice) (i : Nat) : Except PanicValue Nat :=
  if i < data.len then .ok (data.ptr + i) else .error (.boundsError i data.len)

/-! ## Handles -/

/-- Go type `Uniform`: wraps the native uniform handle. -/
structure Uniform where
  h : Nat
  deriving DecidableEq, Repr

/-- Go type `Texture`: wraps the native texture handle. -/
structure Texture where
  h : Nat
  deriving DecidableEq, Repr

/-! ## The exported functions -/

/-- Go `C.CString(name)` as the C side reads it: the copy is NUL-terminated,
so the C string is the part of the name before its first NUL character (the
whole name when it has none). -/
def CString (name : String) : String :=
  String.mk (name.toList.takeWhile (fun c => c != Char.ofNat 0))

/-- The check the Go runtime makes on a pointer argument of a cgo call, before
the native function runs: it panics when the memory pointed into stores a Go
pointer. -/
def cgoCheckPointer (v : Value) : Except PanicValue Unit :=
  if v.goPointers then .error .cgoPointer else .ok ()

/-- Go `CreateUniform`: copies the name to a C string (released on return, no
other effect), then calls `bgfx_create_uniform` with `C.uint16_t(num)`.  The
C string lives in C memory and the other arguments are integers, so the cgo
pointer check has nothing to reject. -/
def CreateUniform (N : Native) (name : String) (typ : Nat) (num : Int) (w : World) : Run Uniform :=
  let cname := CString name
  let r := N.call (.bgfx_create_uniform cname typ (toUint16 num)) w
  { out := .ok { h := r.1 }, world := r.2 }

/-- Go `DestroyUniform`. -/
def DestroyUniform (N : Native) (u : Uniform) (w : World) : Run Unit :=
  let r := N.call (.bgfx_destroy_uniform u.h) w
  { out := .ok (), world := r.2 }

/-- Go `VertexPack`: the kind check, then the cgo call, whose pointer check on
`val.Pointer()` comes before the native function (the input array and the
layout record hold no pointers). -/
def VertexPack (N : Native) (input : Float4) (normalized : Bool) (attrib : Nat)
    (decl : VertexDecl) (slice : Value) (index : Int) (w : World) : Run Unit :=
  if slice.kind ≠ Kind.Slice then
    { out := .panic (.error "bgfx: expected slice"), world := w }
  else
    match cgoCheckPointer slice with
    | .error p => { out := .panic p, world := w }
    | .ok _ =>
      let r := N.call (.bgfx_vertex_pack input normalized attrib decl.decl slice.ptr
        (toUint32 index)) w
      { out := .ok (), world := r.2 }

/-- Go `VertexUnpack`: the kind check, then the cgo call with its pointer check
on `val.Pointer()`; the result is the output array the native call filled. -/
def VertexUnpack (N : Native) (attrib : Nat) (decl : VertexDecl) (slice : Value) (index : Int)
    (w : World) : Run Float4 :=
  if slice.kind ≠ Kind.Slice then
    { out := .panic (.error "bgfx: expected slice"), world := w }
  else
    match cgoCheckPointer slice with
    | .error p => { out := .panic p, world := w }
    | .ok _ =>
      let c := NativeCall.bgfx_vertex_unpack attrib decl.decl slice.ptr (toUint32 index)
      let r := N.call c w
      { out := .ok (N.output w.trace c w.mem), world := r.2 }

/-- Go `VertexConvert`: the three `switch` cases in source order, then the cgo
call with `C.uint32_t(srcVal.Len())`, whose pointer checks on `destPtr` and
`srcPtr` come before the native function. -/
def VertexConvert (N : Native) (destDecl srcDecl : VertexDecl) (dest src : Value) (w : World) :
    Run Unit :=
  if dest.kind ≠ Kind.Slice ∨ src.kind ≠ Kind.Slice then
    { out := .panic (.error "bgfx: expected slice"), world := w }
  else if dest.len ≠ src.len then
    { out := .panic (.error "bgfx: len(dest) != len(src)"), world := w }
  else if destDecl.Stride ≠ (dest.elemSize : Int) then
    { out := .panic (.error "bgfx: stride != dest element size"), world := w }
  else
    match cgoCheckPointer dest with
    | .error p => { out := .panic p, world := w }
    | .ok _ =>
      match cgoCheckPointer src with
      | .error p => { out := .panic p, world := w }
      | .ok _ =>
        let r := N.call (.bgfx_vertex_convert destDecl.decl dest.ptr srcDecl.decl src.ptr
          (toUint32 src.len)) w
        { out := .ok (), world := r.2 }

/-- Go `CreateTexture`: the arguments are evaluated first, so `&data[0]` is
taken before `bgfx_copy`, and `bgfx_copy` runs before `bgfx_create_texture`.
The elements of a `[]byte` hold no pointers, so the cgo pointer check of
`&data[0]` has nothing to reject. -/
def CreateTexture (N : Native) (data : ByteSlice) (flags : Nat) (skip : Nat) (w : World) :
    Run Texture :=
  match data.addrOf 0 with
  | .error p => { out := .panic p, world := w }
  | .ok a =>
    let m := N.call (.bgfx_copy a (toUint32 data.len)) w
    let t := N.call (.bgfx_create_texture m.1 (flags % 4294967296) (skip % 256)) m.2
    { out := .ok { h := t.1 }, world := t.2 }

/-! ## Texture flags -/

/-- Go type `TextureFlags`, a `uint32`. -/
abbrev TextureFlags := Nat

/-! First constant block: `1 << iota`, iota running from 0. -/

def TextureNone : TextureFlags := 1 <<< 0
def TextureUMirror : TextureFlags := 1 <<< 1
def TextureUClamp : TextureFlags := 1 <<< 2
def TextureVMirror : TextureFlags := 1 <<< 3
def TextureVClamp : TextureFlags := 1 <<< 4
def TextureWMirror : TextureFlags := 1 <<< 5
def TextureWClamp : TextureFlags := 1 <<< 6
def TextureMinPoint : TextureFlags := 1 <<< 7
def TextureMinAnisotropic : TextureFlags := 1 <<< 8
def TextureMagPoint : TextureFlags := 1 <<< 9
def TextureMagAnisotropic : TextureFlags := 1 <<< 10
def TextureMipPoint : TextureFlags := 1 <<< 11

/-! Second constant block: `0x00001000 + iota`, the last entry given outright. -/

def TextureRT : TextureFlags := 0x00001000 + 0
def TextureRTMSAAX2 : TextureFlags := 0x00001000 + 1
def TextureRTMSAAX4 : TextureFlags := 0x00001000 + 2
def TextureRTMSAAX8 : TextureFlags := 0x00001000 + 3
def TextureRTMSAAX16 : TextureFlags := 0x00001000 + 4
def TextureRTBufferOnly : TextureFlags := 0x00008000

/-! Third constant block: `0x00010000 + iota`. -/

def TextureCompareLess : TextureFlags := 0x00010000 + 0
def TextureCompareLEqual : TextureFlags := 0x00010000 + 1
def TextureCompareEqual : TextureFlags := 0x00010000 + 2
def TextureCompareGEqual : TextureFlags := 0x00010000 + 3
def TextureCompareGreater : TextureFlags := 0x00010000 + 4
def TextureCompareNotEqual : TextureFlags := 0x00010000 + 5
def TextureCompareNever : TextureFlags := 0x00010000 + 6
def TextureCompareAlways : TextureFlags := 0x00010000 + 7

/-- The wrap / clamp / mirror / filter family, in declaration order. -/
def samplerFlags : List TextureFlags :=
  [TextureNone, TextureUMirror, TextureUClamp, TextureVMirror, TextureVClamp, TextureWMirror,
   TextureWClamp, TextureMinPoint, TextureMinAnisotropic, TextureMagPoint,
   TextureMagAnisotropic, TextureMipPoint]

/-- The render-target / multisample family. -/
def renderTargetFlags : List TextureFlags :=
  [TextureRT, TextureRTMSAAX2, TextureRTMSAAX4, TextureRTMSAAX8, TextureRTMSAAX16,
   TextureRTBufferOnly]

/-- The depth-compare family. -/
def compareFlags : List TextureFlags :=
  [TextureCompareLess, TextureCompareLEqual, TextureCompareEqual, TextureCompareGEqual,
   TextureCompareGreater, TextureCompareNotEqual, TextureCompareNever, TextureCompareAlways]

/-- A flag value with exactly one bit set (within 32 bits). -/
def isSingleBit (a : TextureFlags) : Bool := (List.range 32).any (fun i => a == 1 <<< i)

/-- Go constant `Uniform4fv` (`iota` = 7 in its block). -/
def Uniform4fv : Nat := 7

/-- Go constant `Uniform1i` (`iota` = 0 in its block). -/
def Uniform1i : Nat := 0

/-! ## A concrete native library for evaluating the functions

Handles are numbered by the position of the call in the history; the vertex
calls that write to a buffer store the byte 255 at the first address they
touch; unpack yields zeros. -/

/-- Sample native library. -/
def sampleNative : Native where
  ret := fun tr _ _ => tr.length
  effect := fun _ c m =>
    match c with
    | .bgfx_vertex_pack _ _ _ d p i => fun a => if a = p + i * d.stride then 255 else m a
    | .bgfx_vertex_convert _ p _ _ _ => fun a => if a = p then 255 else m a
    | _ => m
  output := fun _ _ _ => { x := 0, y := 0, z := 0, w := 0 }

/-- The empty world: zeroed memory, no native call made yet. -/
def World.empty : World := { mem := fun _ => 0, trace := [] }

/-- A Go slice value whose elements hold Go pointers (say a struct with a
pointer field). -/
def pointerSliceValue (ptr len elemSize : Nat) : Value :=
  { kind := Kind.Slice, len := len, elemSize := elemSize, ptr := ptr, goPointers := true }

/-- A vertex layout of the given stride with no attribute data. -/
def declOfStride (n : Nat) : VertexDecl :=
  { decl := { hash := 0, stride := n, offset := [], attributes := [] } }

/-- A Go slice value as `reflect` shows it, of elements that hold no pointers. -/
def sliceValue (ptr len elemSize : Nat) : Value :=
  { kind := Kind.Slice, len := len, elemSize := elemSize, ptr := ptr }

end bgfx

namespace bgfx

/-! ## Helper lemmas -/

/-- A length below 2^32 survives the conversion to `uint32`. -/
theorem toUint32_natCast_of_lt (n : Nat) (h : n < 4294967296) : toUint32 (n : Int) = n := by
  unfold toUint32
  omega

/-- The conversion to `uint16` keeps the value exactly on the range of `uint16`. -/
theorem toUint16_cast_eq_iff (num : Int) :
    ((toUint16 num : Nat) : Int) = num ↔ (0 ≤ num ∧ num < 65536) := by
  unfold toUint16
  omega

/-- The conversion to `uint32` keeps the value exactly on the range of `uint32`. -/
theorem toUint32_cast_eq_iff (index : Int) :
    ((toUint32 index : Nat) : Int) = index ↔ (0 ≤ index ∧ index < 4294967296) := by
  unfold toUint32
  omega

/-- A call log extended by one call differs from the log before. -/
theorem trace_append_singleton_ne (tr : List NativeCall) (c : NativeCall) : tr ≠ tr ++ [c] := by
  intro h
  have hl := congrArg List.length h
  simp at hl

/-- A slice that passes the pointer check: `VertexPack` makes its native call. -/
theorem VertexPack_of_checked_slice (N : Native) (input : Float4) (normalized : Bool)
    (attrib : Nat) (decl : VertexDecl) (slice : Value) (index : Int) (w : World)
    (h : slice.kind = Kind.Slice) (hp : slice.goPointers = false) :
    VertexPack N input normalized attrib decl slice index w
      = { out := Outcome.ok (),
          world := (N.call (NativeCall.bgfx_vertex_pack input normalized attrib decl.decl
            slice.ptr (toUint32 index)) w).2 } := by
  unfold VertexPack cgoCheckPointer
  simp [h, hp]

/-- A slice that passes the pointer check: `VertexUnpack` makes its native call. -/
theorem VertexUnpack_of_checked_slice (N : Native) (attrib : Nat) (decl : VertexDecl)
    (slice : Value) (index : Int) (w : World)
    (h : slice.kind = Kind.Slice) (hp : slice.goPointers = false) :
    VertexUnpack N attrib decl slice index w
      = { out := Outcome.ok (N.output w.trace
            (NativeCall.bgfx_vertex_unpack attrib decl.decl slice.ptr (toUint32 index)) w.mem),
          world := (N.call (NativeCall.bgfx_vertex_unpack attrib decl.decl slice.ptr
            (toUint32 index)) w).2 } := by
  unfold VertexUnpack cgoCheckPointer
  simp [h, hp]

/-- A slice whose memory holds Go pointers: `VertexPack` panics in the pointer check. -/
theorem VertexPack_of_pointer_slice (N : Native) (input : Float4) (normalized : Bool)
    (attrib : Nat) (decl : VertexDecl) (slice : Value) (index : Int) (w : World)
    (h : slice.kind = Kind.Slice) (hp : slice.goPointers = true) :
    VertexPack N input normalized attrib decl slice index w
      = { out := Outcome.panic PanicValue.cgoPointer, world := w } := by
  unfold VertexPack cgoCheckPointer
  simp [h, hp]

/-- A slice whose memory holds Go pointers: `VertexUnpack` panics in the pointer check. -/
theorem VertexUnpack_of_pointer_slice (N : Native) (attrib : Nat) (decl : VertexDecl)
    (slice : Value) (index : Int) (w : World)
    (h : slice.kind = Kind.Slice) (hp : slice.goPointers = true) :
    VertexUnpack N attrib decl slice index w
      = { out := Outcome.panic PanicValue.cgoPointer, world := w } := by
  unfold VertexUnpack cgoCheckPointer
  simp [h, hp]

/-- A name without a NUL character is its own C string. -/
theorem CString_of_no_nul (name : String) (h : ∀ c ∈ name.toList, c ≠ Char.ofNat 0) :
    CString name = name := by
  unfold CString
  have ht : name.toList.takeWhile (fun c => c != Char.ofNat 0) = name.toList := by
    rw [List.takeWhile_eq_self_iff]
    intro c hc
    simpa using h c hc
  rw [ht]
  rfl

/-- The C string never has a NUL character inside. -/
theorem CString_no_nul (name : String) : ∀ c ∈ (CString name).toList, c ≠ Char.ofNat 0 := by
  intro c hc
  unfold CString at hc
  have hm : c ∈ name.toList.takeWhile (fun c => c != Char.ofNat 0) := hc
  have := List.mem_takeWhile_imp hm
  simpa using this

/-! ## CreateTexture -/

/-- C1, as stated, fails: on a zero-length slice `CreateTexture` does panic
before any native call, but the panic value is the Go runtime's
index-out-of-range error raised by `&data[0]`, not an error value built by the
package (there is no `InvalidArgument` in the code). -/
theorem CreateTexture_empty_counterexample :
    (CreateTexture sampleNative { ptr := 4096, len := 0 } TextureNone 0 World.empty).out
        = Outcome.panic (PanicValue.boundsError 0 0)
      ∧ ¬ ∃ msg, (CreateTexture sampleNative { ptr := 4096, len := 0 } TextureNone 0
            World.empty).out = Outcome.panic (PanicValue.error msg) := by
  refine ⟨by decide, ?_⟩
  rintro ⟨msg, h⟩
  have h0 : (CreateTexture sampleNative { ptr := 4096, len := 0 } TextureNone 0 World.empty).out
      = Outcome.panic (PanicValue.boundsError 0 0) := by decide
  rw [h0] at h
  cases h

/-- C1, amended: for every native library, flags and skip, `CreateTexture` on
a zero-length slice panics with the runtime bounds error of index 0 in length
0, and the world is as before the call: memory untouched, neither `bgfx_copy`
nor `bgfx_create_texture` invoked. -/
theorem CreateTexture_empty_panics_before_native (N : Native) (data : ByteSlice)
    (flags skip : Nat) (w : World) (h : data.len = 0) :
    (CreateTexture N data flags skip w).out = Outcome.panic (PanicValue.boundsError 0 0)
      ∧ (CreateTexture N data flags skip w).world = w := by
  unfold CreateTexture ByteSlice.addrOf
  simp [h]

/-- The amended C1 statement applied to a concrete empty slice, flags and skip. -/
theorem CreateTexture_empty_panics_before_native_witness :
    (CreateTexture sampleNative { ptr := 4096, len := 0 } TextureMipPoint 3 World.empty).out
        = Outcome.panic (PanicValue.boundsError 0 0)
      ∧ (CreateTexture sampleNative { ptr := 4096, len := 0 } TextureMipPoint 3
          World.empty).world = World.empty :=
  CreateTexture_empty_panics_before_native sampleNative { ptr := 4096, len := 0 }
    TextureMipPoint 3 World.empty rfl

/-! ## VertexConvert -/

/-- C2: whenever the destination size does not fit (`len(dest) != len(src)`, or
`destDecl.Stride()` differs from the destination element size), `VertexConvert`
panics with an error and the world is as before the call: every byte of memory
(the destination buffer included) is unchanged and no native call was made.
When both arguments are slices the error is the length error, or else the
stride error. -/
theorem VertexConvert_size_mismatch_leaves_dest_unchanged (N : Native)
    (destDecl srcDecl : VertexDecl) (dest src : Value) (w : World)
    (h : dest.len ≠ src.len ∨ destDecl.Stride ≠ (dest.elemSize : Int)) :
    (∃ msg, (VertexConvert N destDecl srcDecl dest src w).out
        = Outcome.panic (PanicValue.error msg))
      ∧ (VertexConvert N destDecl srcDecl dest src w).world.mem = w.mem
      ∧ (VertexConvert N destDecl srcDecl dest src w).world.trace = w.trace
      ∧ (dest.kind = Kind.Slice → src.kind = Kind.Slice →
          (VertexConvert N destDecl srcDecl dest src w).out
            = Outcome.panic (PanicValue.error
                (if dest.len ≠ src.len then "bgfx: len(dest) != len(src)"
                 else "bgfx: stride != dest element size"))) := by
  unfold VertexConvert
  by_cases hk : dest.kind ≠ Kind.Slice ∨ src.kind ≠ Kind.Slice
  · rw [if_pos hk]
    refine ⟨⟨_, rfl⟩, rfl, rfl, ?_⟩
    intro h1 h2
    rcases hk with hk | hk
    · exact absurd h1 hk
    · exact absurd h2 hk
  · rw [if_neg hk]
    by_cases hl : dest.len ≠ src.len
    · rw [if_pos hl]
      exact ⟨⟨_, rfl⟩, rfl, rfl, fun _ _ => by rw [if_pos hl]⟩
    · rw [if_neg hl]
      have hs : destDecl.Stride ≠ (dest.elemSize : Int) := by
        rcases h with h | h
        · exact absurd h hl
        · exact h
      rw [if_pos hs]
      exact ⟨⟨_, rfl⟩, rfl, rfl, fun _ _ => by rw [if_neg hl]⟩

/-- The C2 statement applied to a destination of 2 elements and a source of 3: byte 8192 of the destination is still 0 and no native call is logged. -/
theorem VertexConvert_size_mismatch_leaves_dest_unchanged_witness :
    ((sliceValue 8192 2 16).len ≠ (sliceValue 4096 3 12).len
        ∨ (declOfStride 16).Stride ≠ ((sliceValue 8192 2 16).elemSize : Int))
      ∧ (VertexConvert sampleNative (declOfStride 16) (declOfStride 12) (sliceValue 8192 2 16)
          (sliceValue 4096 3 12) World.empty).world.mem 8192 = 0
      ∧ (VertexConvert sampleNative (declOfStride 16) (declOfStride 12) (sliceValue 8192 2 16)
          (sliceValue 4096 3 12) World.empty).world.trace = [] :=
  have h := VertexConvert_size_mismatch_leaves_dest_unchanged sampleNative (declOfStride 16)
    (declOfStride 12) (sliceValue 8192 2 16) (sliceValue 4096 3 12) World.empty
    (Or.inl (by decide))
  ⟨Or.inl (by decide), by rw [h.2.1]; rfl, by rw [h.2.2.1]; rfl⟩

/-- C3, the code at the failing input: the source slice has 3 elements of 4
bytes (12 bytes) while the source layout's stride is 12 (3 vertices need 36
bytes); the destination fits its layout.  `VertexConvert` returns normally and
has invoked the native conversion for 3 vertices, which also writes to the
destination. -/
theorem VertexConvert_src_stride_unchecked :
    (sliceValue 4096 3 4).len * (sliceValue 4096 3 4).elemSize
        ≠ 3 * (declOfStride 12).decl.stride
      ∧ (VertexConvert sampleNative (declOfStride 16) (declOfStride 12) (sliceValue 8192 3 16)
          (sliceValue 4096 3 4) World.empty).out = Outcome.ok ()
      ∧ (VertexConvert sampleNative (declOfStride 16) (declOfStride 12) (sliceValue 8192 3 16)
          (sliceValue 4096 3 4) World.empty).world.trace
          = [NativeCall.bgfx_vertex_convert (declOfStride 16).decl 8192 (declOfStride 12).decl
              4096 3]
      ∧ (VertexConvert sampleNative (declOfStride 16) (declOfStride 12) (sliceValue 8192 3 16)
          (sliceValue 4096 3 4) World.empty).world.mem 8192 = 255 := by
  refine ⟨by decide, by decide, by decide, by decide⟩

/-! ## VertexPack and VertexUnpack -/

/-- C4, as stated, fails: the buffer is a slice of one 4-byte element, the
layout's stride is 16 and the index is 5, so `(5+1)*16 = 96` exceeds the 4
bytes of the buffer; `VertexPack` and `VertexUnpack` nevertheless return
normally and have invoked the native pack / unpack for vertex 5 (the pack
writes outside the buffer, at address `4096 + 5*16`). -/
theorem VertexPack_Unpack_bounds_counterexample :
    (sliceValue 4096 1 4).len * (sliceValue 4096 1 4).elemSize
        < (5 + 1) * (declOfStride 16).decl.stride
      ∧ (VertexPack sampleNative { x := 1, y := 2, z := 3, w := 4 } false 0 (declOfStride 16)
          (sliceValue 4096 1 4) 5 World.empty).out = Outcome.ok ()
      ∧ (VertexPack sampleNative { x := 1, y := 2, z := 3, w := 4 } false 0 (declOfStride 16)
          (sliceValue 4096 1 4) 5 World.empty).world.trace
          = [NativeCall.bgfx_vertex_pack { x := 1, y := 2, z := 3, w := 4 } false 0
              (declOfStride 16).decl 4096 5]
      ∧ (VertexPack sampleNative { x := 1, y := 2, z := 3, w := 4 } false 0 (declOfStride 16)
          (sliceValue 4096 1 4) 5 World.empty).world.mem 4176 = 255
      ∧ (VertexUnpack sampleNative 0 (declOfStride 16) (sliceValue 4096 1 4) 5 World.empty).out
          = Outcome.ok { x := 0, y := 0, z := 0, w := 0 }
      ∧ (VertexUnpack sampleNative 0 (declOfStride 16) (sliceValue 4096 1 4) 5
          World.empty).world.trace
          = [NativeCall.bgfx_vertex_unpack 0 (declOfStride 16).decl 4096 5] := by
  refine ⟨by decide, by decide, by decide, by decide, by decide, by decide⟩

/-- C4, amended: `VertexPack` and `VertexUnpack` compare neither the index nor
the stride with the buffer's length and have no buffer-too-small error.  For a
slice buffer, whatever the layout and the index (also when `(index+1)*stride`
exceeds the buffer's byte length): if the buffer's memory holds no Go pointers
the call returns normally having invoked the native pack / unpack exactly
once, on the slice's base pointer with the index converted to `uint32`; if it
holds Go pointers the call panics in the cgo pointer check and nothing is
invoked or written. -/
theorem VertexPack_Unpack_no_bounds_check (N : Native) (input : Float4) (normalized : Bool)
    (attrib : Nat) (decl : VertexDecl) (slice : Value) (index : Int) (w : World)
    (h : slice.kind = Kind.Slice) :
    (slice.goPointers = false →
        (VertexPack N input normalized attrib decl slice index w).out = Outcome.ok ()
          ∧ (VertexPack N input normalized attrib decl slice index w).world.trace
              = w.trace ++ [NativeCall.bgfx_vertex_pack input normalized attrib decl.decl
                  slice.ptr (toUint32 index)]
          ∧ (∃ v, (VertexUnpack N attrib decl slice index w).out = Outcome.ok v)
          ∧ (VertexUnpack N attrib decl slice index w).world.trace
              = w.trace ++ [NativeCall.bgfx_vertex_unpack attrib decl.decl slice.ptr
                  (toUint32 index)])
      ∧ (slice.goPointers = true →
        (VertexPack N input normalized attrib decl slice index w).out
            = Outcome.panic PanicValue.cgoPointer
          ∧ (VertexPack N input normalized attrib decl slice index w).world = w
          ∧ (VertexUnpack N attrib decl slice index w).out
            = Outcome.panic PanicValue.cgoPointer
          ∧ (VertexUnpack N attrib decl slice index w).world = w) := by
  constructor
  · intro hp
    rw [VertexPack_of_checked_slice N input normalized attrib decl slice index w h hp,
      VertexUnpack_of_checked_slice N attrib decl slice index w h hp]
    exact ⟨rfl, rfl, ⟨_, rfl⟩, rfl⟩
  · intro hp
    rw [VertexPack_of_pointer_slice N input normalized attrib decl slice index w h hp,
      VertexUnpack_of_pointer_slice N attrib decl slice index w h hp]
    exact ⟨rfl, rfl, rfl, rfl⟩

/-- The amended C4 statement applied to a two-element slice without pointers
and index 9, and to a slice of pointer-holding elements. -/
theorem VertexPack_Unpack_no_bounds_check_witness :
    (sliceValue 4096 2 8).kind = Kind.Slice
      ∧ (VertexPack sampleNative { x := 0, y := 0, z := 0, w := 0 } true 1 (declOfStride 8)
          (sliceValue 4096 2 8) 9 World.empty).out = Outcome.ok ()
      ∧ (VertexUnpack sampleNative 1 (declOfStride 8) (sliceValue 4096 2 8) 9
          World.empty).world.trace
          = [NativeCall.bgfx_vertex_unpack 1 (declOfStride 8).decl 4096 9]
      ∧ (VertexPack sampleNative { x := 0, y := 0, z := 0, w := 0 } true 1 (declOfStride 8)
          (pointerSliceValue 4096 2 8) 9 World.empty).out
          = Outcome.panic PanicValue.cgoPointer :=
  have h := (VertexPack_Unpack_no_bounds_check sampleNative { x := 0, y := 0, z := 0, w := 0 }
    true 1 (declOfStride 8) (sliceValue 4096 2 8) 9 World.empty rfl).1 rfl
  have hp := (VertexPack_Unpack_no_bounds_check sampleNative
    { x := 0, y := 0, z := 0, w := 0 } true 1 (declOfStride 8) (pointerSliceValue 4096 2 8) 9
    World.empty rfl).2 rfl
  ⟨rfl, h.1, by rw [h.2.2.2]; rfl, hp.1⟩

/-! ## Uniforms -/

/-- C5, as stated, fails: `CreateUniform` with the empty name and count 0
returns a handle and has registered a native uniform with exactly those
arguments. -/
theorem CreateUniform_empty_name_counterexample :
    (CreateUniform sampleNative "" Uniform1i 0 World.empty).out = Outcome.ok { h := 0 }
      ∧ (CreateUniform sampleNative "" Uniform1i 0 World.empty).world.trace
          = [NativeCall.bgfx_create_uniform "" Uniform1i 0] := by
  refine ⟨by decide, by decide⟩

/-- C5, amended: `CreateUniform` validates nothing.  For every name (the empty
one included), type and count (0 and negatives included) it returns normally
with the handle the native library gave, having invoked `bgfx_create_uniform`
exactly once with the C string of the name, the type and the count converted to
`uint16`.  The C string is the name up to its first NUL character: it never
has a NUL inside, and it is the whole name when the name has none. -/
theorem CreateUniform_always_registers (N : Native) (name : String) (typ : Nat) (num : Int)
    (w : World) :
    (CreateUniform N name typ num w).out
        = Outcome.ok (Uniform.mk
            (N.ret w.trace (NativeCall.bgfx_create_uniform (CString name) typ (toUint16 num))
              w.mem))
      ∧ (CreateUniform N name typ num w).world.trace
          = w.trace ++ [NativeCall.bgfx_create_uniform (CString name) typ (toUint16 num)]
      ∧ CString name = String.mk (name.toList.takeWhile (fun c => c != Char.ofNat 0))
      ∧ (∀ c ∈ (CString name).toList, c ≠ Char.ofNat 0)
      ∧ ((∀ c ∈ name.toList, c ≠ Char.ofNat 0) → CString name = name) := by
  unfold CreateUniform Native.call
  exact ⟨rfl, rfl, rfl, CString_no_nul name, CString_of_no_nul name⟩

/-- The amended C5 statement applied to a name without NUL (passed whole) and
to a name with a NUL after its first character (passed as that character). -/
theorem CreateUniform_always_registers_witness :
    (∀ c ∈ "u_time".toList, c ≠ Char.ofNat 0)
      ∧ (CreateUniform sampleNative "u_time" Uniform4fv 2 World.empty).world.trace
          = [NativeCall.bgfx_create_uniform "u_time" Uniform4fv 2]
      ∧ (CreateUniform sampleNative (String.mk ['u', Char.ofNat 0, 'x']) Uniform4fv 2
          World.empty).world.trace
          = [NativeCall.bgfx_create_uniform "u" Uniform4fv 2] :=
  have h := CreateUniform_always_registers sampleNative "u_time" Uniform4fv 2 World.empty
  have hn : ∀ c ∈ "u_time".toList, c ≠ Char.ofNat 0 := by decide
  ⟨hn, by rw [h.2.1, h.2.2.2.2 hn]; rfl, by decide⟩

/-- C6, as stated, fails: a uniform is created and then passed to
`DestroyUniform` twice; the second call returns normally like the first, and
the native destroy has been invoked twice with the same handle. -/
theorem DestroyUniform_twice_counterexample :
    (CreateUniform sampleNative "u_time" Uniform4fv 1 World.empty).out = Outcome.ok { h := 0 }
      ∧ (DestroyUniform sampleNative { h := 0 }
          (DestroyUniform sampleNative { h := 0 }
            (CreateUniform sampleNative "u_time" Uniform4fv 1 World.empty).world).world).out
          = Outcome.ok ()
      ∧ (DestroyUniform sampleNative { h := 0 }
          (DestroyUniform sampleNative { h := 0 }
            (CreateUniform sampleNative "u_time" Uniform4fv 1 World.empty).world).world).world.trace
          = [NativeCall.bgfx_create_uniform "u_time" Uniform4fv 1,
             NativeCall.bgfx_destroy_uniform 0, NativeCall.bgfx_destroy_uniform 0] := by
  refine ⟨by decide, by decide, by decide⟩

/-- C6, amended: `DestroyUniform` keeps no record of handles.  Every call
returns normally and forwards the handle to the native destroy exactly once, so
a second call on the same handle forwards it a second time. -/
theorem DestroyUniform_always_forwards (N : Native) (u : Uniform) (w : World) :
    (DestroyUniform N u w).out = Outcome.ok ()
      ∧ (DestroyUniform N u w).world.trace = w.trace ++ [NativeCall.bgfx_destroy_uniform u.h]
      ∧ (DestroyUniform N u (DestroyUniform N u w).world).out = Outcome.ok ()
      ∧ (DestroyUniform N u (DestroyUniform N u w).world).world.trace
          = w.trace ++ [NativeCall.bgfx_destroy_uniform u.h, NativeCall.bgfx_destroy_uniform u.h] := by
  unfold DestroyUniform Native.call
  simp

/-! ## Integer conversions at the native boundary -/

/-- C7, as stated, fails: `CreateUniform` with count 65537 returns normally and
registers array length 1; `VertexPack` and `VertexUnpack` with index -1 return
normally and address vertex 4294967295. -/
theorem integer_arguments_wrap_counterexample :
    (CreateUniform sampleNative "u_lights" Uniform4fv 65537 World.empty).out
        = Outcome.ok { h := 0 }
      ∧ (CreateUniform sampleNative "u_lights" Uniform4fv 65537 World.empty).world.trace
          = [NativeCall.bgfx_create_uniform "u_lights" Uniform4fv 1]
      ∧ (VertexPack sampleNative { x := 0, y := 0, z := 0, w := 0 } false 0 (declOfStride 16)
          (sliceValue 4096 4 16) (-1) World.empty).out = Outcome.ok ()
      ∧ (VertexPack sampleNative { x := 0, y := 0, z := 0, w := 0 } false 0 (declOfStride 16)
          (sliceValue 4096 4 16) (-1) World.empty).world.trace
          = [NativeCall.bgfx_vertex_pack { x := 0, y := 0, z := 0, w := 0 } false 0
              (declOfStride 16).decl 4096 4294967295]
      ∧ (VertexUnpack sampleNative 0 (declOfStride 16) (sliceValue 4096 4 16) (-1)
          World.empty).world.trace
          = [NativeCall.bgfx_vertex_unpack 0 (declOfStride 16).decl 4096 4294967295] := by
  refine ⟨by decide, by decide, by decide, by decide, by decide⟩

/-- C7, amended: integer arguments reach the native layer reduced modulo the
width of the C parameter.  `CreateUniform` never fails and registers array
length `num mod 2^16`, which equals `num` exactly when `0 ≤ num < 2^16`.
`VertexPack` and `VertexUnpack` either fail without a native call (the buffer is
not a slice, or its memory holds Go pointers) or address vertex
`index mod 2^32`, which equals `index` exactly when `0 ≤ index < 2^32`. -/
theorem integer_arguments_reduced_modulo (N : Native) (name : String) (typ : Nat) (num : Int)
    (input : Float4) (normalized : Bool) (attrib : Nat) (decl : VertexDecl) (slice : Value)
    (index : Int) (w : World) :
    ((∃ u, (CreateUniform N name typ num w).out = Outcome.ok u)
      ∧ (CreateUniform N name typ num w).world.trace
          = w.trace ++ [NativeCall.bgfx_create_uniform (CString name) typ (num % 65536).toNat]
      ∧ ((((num % 65536).toNat : Nat) : Int) = num ↔ (0 ≤ num ∧ num < 65536)))
    ∧ ((slice.kind = Kind.Slice ∧ slice.goPointers = false) →
        (VertexPack N input normalized attrib decl slice index w).out = Outcome.ok ()
          ∧ (VertexPack N input normalized attrib decl slice index w).world.trace
              = w.trace ++ [NativeCall.bgfx_vertex_pack input normalized attrib decl.decl
                  slice.ptr (index % 4294967296).toNat]
          ∧ (∃ v, (VertexUnpack N attrib decl slice index w).out = Outcome.ok v)
          ∧ (VertexUnpack N attrib decl slice index w).world.trace
              = w.trace ++ [NativeCall.bgfx_vertex_unpack attrib decl.decl slice.ptr
                  (index % 4294967296).toNat])
    ∧ (¬ (slice.kind = Kind.Slice ∧ slice.goPointers = false) →
        (∃ p, (VertexPack N input normalized attrib decl slice index w).out = Outcome.panic p)
          ∧ (VertexPack N input normalized attrib decl slice index w).world = w
          ∧ (∃ p, (VertexUnpack N attrib decl slice index w).out = Outcome.panic p)
          ∧ (VertexUnpack N attrib decl slice index w).world = w)
    ∧ ((((index % 4294967296).toNat : Nat) : Int) = index
          ↔ (0 ≤ index ∧ index < 4294967296)) := by
  refine ⟨⟨⟨_, rfl⟩, rfl, toUint16_cast_eq_iff num⟩, ?_, ?_, toUint32_cast_eq_iff index⟩
  · rintro ⟨h, hp⟩
    rw [VertexPack_of_checked_slice N input normalized attrib decl slice index w h hp,
      VertexUnpack_of_checked_slice N attrib decl slice index w h hp]
    exact ⟨rfl, rfl, ⟨_, rfl⟩, rfl⟩
  · intro hn
    by_cases h : slice.kind = Kind.Slice
    · have hp : slice.goPointers = true := by
        cases hg : slice.goPointers
        · exact absurd ⟨h, hg⟩ hn
        · rfl
      rw [VertexPack_of_pointer_slice N input normalized attrib decl slice index w h hp,
        VertexUnpack_of_pointer_slice N attrib decl slice index w h hp]
      exact ⟨⟨_, rfl⟩, rfl, ⟨_, rfl⟩, rfl⟩
    · unfold VertexPack VertexUnpack
      rw [if_pos h, if_pos h]
      exact ⟨⟨_, rfl⟩, rfl, ⟨_, rfl⟩, rfl⟩

/-- The amended C7 statement applied to count -3 and index 2^32 + 2. -/
theorem integer_arguments_reduced_modulo_witness :
    ((sliceValue 4096 4 16).kind = Kind.Slice ∧ (sliceValue 4096 4 16).goPointers = false)
      ∧ (CreateUniform sampleNative "u_lights" Uniform4fv (-3) World.empty).world.trace
          = [NativeCall.bgfx_create_uniform "u_lights" Uniform4fv 65533]
      ∧ (VertexPack sampleNative { x := 0, y := 0, z := 0, w := 0 } false 0 (declOfStride 16)
          (sliceValue 4096 4 16) 4294967298 World.empty).world.trace
          = [NativeCall.bgfx_vertex_pack { x := 0, y := 0, z := 0, w := 0 } false 0
              (declOfStride 16).decl 4096 2] :=
  have h := integer_arguments_reduced_modulo sampleNative "u_lights" Uniform4fv (-3)
    { x := 0, y := 0, z := 0, w := 0 } false 0 (declOfStride 16) (sliceValue 4096 4 16)
    4294967298 World.empty
  ⟨⟨rfl, rfl⟩, by rw [h.1.2.1]; decide, by rw [(h.2.1 ⟨rfl, rfl⟩).2.1]; decide⟩

/-! ## Texture flag constants -/

/-- C8, the code at the failing input `a = TextureNone`, `b = TextureRTMSAAX2`
(and `b = TextureCompareLEqual`): the first family is twelve distinct single
bits, as claimed, but `b & a = 1`, not 0, because the second and third blocks
are numbered `0x1000 + iota` and `0x10000 + iota` and so reuse the low bits.
Four of the six render-target constants and seven of the eight compare
constants share a bit with the first family. -/
theorem TextureFlags_families_overlap :
    samplerFlags.all isSingleBit = true
      ∧ samplerFlags.Nodup
      ∧ TextureRTMSAAX2 = 0x1001
      ∧ TextureRTMSAAX2 &&& TextureNone = 1
      ∧ (TextureNone ||| TextureRTMSAAX2) = TextureRTMSAAX2
      ∧ TextureCompareLEqual &&& TextureNone = 1
      ∧ renderTargetFlags.filter (fun b => samplerFlags.any (fun a => b &&& a != 0))
          = [TextureRTMSAAX2, TextureRTMSAAX4, TextureRTMSAAX8, TextureRTMSAAX16]
      ∧ compareFlags.filter (fun b => samplerFlags.any (fun a => b &&& a != 0))
          = [TextureCompareLEqual, TextureCompareEqual, TextureCompareGEqual,
             TextureCompareGreater, TextureCompareNotEqual, TextureCompareNever,
             TextureCompareAlways] := by
  refine ⟨by decide, by decide, by decide, by decide, by decide, by decide, by decide, by decide⟩

/-! ## The slice check -/

/-- C9: when the buffer argument of `VertexPack` or `VertexUnpack` is not a
slice, or either of `dest` and `src` of `VertexConvert` is not a slice, the
call panics with the error "bgfx: expected slice" and the world is as before
(no native call, no write).  For `VertexConvert` nothing is assumed about the
lengths or the stride, so the check comes before those. -/
theorem non_slice_argument_panics (N : Native) (input : Float4) (normalized : Bool)
    (attrib : Nat) (decl destDecl srcDecl : VertexDecl) (slice dest src : Value) (index : Int)
    (w : World) :
    (slice.kind ≠ Kind.Slice →
        (VertexPack N input normalized attrib decl slice index w).out
            = Outcome.panic (PanicValue.error "bgfx: expected slice")
          ∧ (VertexPack N input normalized attrib decl slice index w).world = w
          ∧ (VertexUnpack N attrib decl slice index w).out
            = Outcome.panic (PanicValue.error "bgfx: expected slice")
          ∧ (VertexUnpack N attrib decl slice index w).world = w)
      ∧ ((dest.kind ≠ Kind.Slice ∨ src.kind ≠ Kind.Slice) →
        (VertexConvert N destDecl srcDecl dest src w).out
            = Outcome.panic (PanicValue.error "bgfx: expected slice")
          ∧ (VertexConvert N destDecl srcDecl dest src w).world = w) := by
  constructor
  · intro h
    unfold VertexPack VertexUnpack
    rw [if_pos h, if_pos h]
    exact ⟨rfl, rfl, rfl, rfl⟩
  · intro h
    unfold VertexConvert
    rw [if_pos h]
    exact ⟨rfl, rfl⟩

/-- The C9 statement applied to an array passed to VertexPack and a pointer passed as the source of VertexConvert. -/
theorem non_slice_argument_panics_witness :
    ((VertexPack sampleNative { x := 0, y := 0, z := 0, w := 0 } false 0 (declOfStride 16)
          { kind := Kind.Array, len := 4, elemSize := 16, ptr := 4096 } 0 World.empty).out
        = Outcome.panic (PanicValue.error "bgfx: expected slice"))
      ∧ ((VertexConvert sampleNative (declOfStride 16) (declOfStride 12)
          (sliceValue 8192 2 20) { kind := Kind.Ptr, len := 0, elemSize := 12, ptr := 4096 }
          World.empty).out = Outcome.panic (PanicValue.error "bgfx: expected slice")) :=
  have h := non_slice_argument_panics sampleNative { x := 0, y := 0, z := 0, w := 0 } false 0
    (declOfStride 16) (declOfStride 16) (declOfStride 12)
    { kind := Kind.Array, len := 4, elemSize := 16, ptr := 4096 } (sliceValue 8192 2 20)
    { kind := Kind.Ptr, len := 0, elemSize := 12, ptr := 4096 } 0 World.empty
  ⟨(h.1 (by decide)).1, (h.2 (Or.inr (by decide))).1⟩

/-! ## When the native conversion runs -/

/-- C10, as stated, fails: `dest` and `src` are both slices of 3 elements and
the destination layout's stride equals the destination element size (16), but
the destination elements hold Go pointers; the call panics in the cgo pointer
check and the native conversion is not invoked. -/
theorem VertexConvert_pointer_check_counterexample :
    ((pointerSliceValue 8192 3 16).kind = Kind.Slice ∧ (sliceValue 4096 3 12).kind = Kind.Slice
        ∧ (pointerSliceValue 8192 3 16).len = (sliceValue 4096 3 12).len
        ∧ (declOfStride 16).Stride = ((pointerSliceValue 8192 3 16).elemSize : Int))
      ∧ (VertexConvert sampleNative (declOfStride 16) (declOfStride 12)
          (pointerSliceValue 8192 3 16) (sliceValue 4096 3 12) World.empty).out
          = Outcome.panic PanicValue.cgoPointer
      ∧ (VertexConvert sampleNative (declOfStride 16) (declOfStride 12)
          (pointerSliceValue 8192 3 16) (sliceValue 4096 3 12) World.empty).world.trace = [] := by
  refine ⟨⟨by decide, by decide, by decide, by decide⟩, by decide, by decide⟩

/-- C10, amended: `VertexConvert` invokes the native conversion exactly when
`dest` and `src` are both slices, `len(dest) == len(src)`, `destDecl.Stride()`
equals the destination element size and neither buffer's memory holds Go
pointers (the cgo pointer check passes); in every other case it makes no
native call and writes nothing.  On an accepted call it returns normally, the
one native call carries the two layouts, the two base pointers and
`uint32(len(src))`, the destination's byte length is
`len(src) * destDecl.Stride()`, and for `len(src) < 2^32` the vertex count
handed over is `len(src)` itself. -/
theorem VertexConvert_native_call_iff (N : Native) (destDecl srcDecl : VertexDecl)
    (dest src : Value) (w : World) :
    ((∃ c, (VertexConvert N destDecl srcDecl dest src w).world.trace = w.trace ++ [c])
        ↔ (dest.kind = Kind.Slice ∧ src.kind = Kind.Slice ∧ dest.len = src.len
            ∧ destDecl.Stride = (dest.elemSize : Int)
            ∧ dest.goPointers = false ∧ src.goPointers = false))
      ∧ (¬ (dest.kind = Kind.Slice ∧ src.kind = Kind.Slice ∧ dest.len = src.len
            ∧ destDecl.Stride = (dest.elemSize : Int)
            ∧ dest.goPointers = false ∧ src.goPointers = false) →
          (∃ p, (VertexConvert N destDecl srcDecl dest src w).out = Outcome.panic p)
            ∧ (VertexConvert N destDecl srcDecl dest src w).world = w)
      ∧ ((dest.kind = Kind.Slice ∧ src.kind = Kind.Slice ∧ dest.len = src.len
            ∧ destDecl.Stride = (dest.elemSize : Int)
            ∧ dest.goPointers = false ∧ src.goPointers = false) →
          (VertexConvert N destDecl srcDecl dest src w).out = Outcome.ok ()
            ∧ (VertexConvert N destDecl srcDecl dest src w).world.trace
                = w.trace ++ [NativeCall.bgfx_vertex_convert destDecl.decl dest.ptr srcDecl.decl
                    src.ptr (toUint32 src.len)]
            ∧ ((dest.len * dest.elemSize : Nat) : Int) = (src.len : Int) * destDecl.Stride
            ∧ (src.len < 4294967296 → toUint32 src.len = src.len)) := by
  have hacc : (dest.kind = Kind.Slice ∧ src.kind = Kind.Slice ∧ dest.len = src.len
            ∧ destDecl.Stride = (dest.elemSize : Int)
            ∧ dest.goPointers = false ∧ src.goPointers = false) →
          (VertexConvert N destDecl srcDecl dest src w).out = Outcome.ok ()
            ∧ (VertexConvert N destDecl srcDecl dest src w).world.trace
                = w.trace ++ [NativeCall.bgfx_vertex_convert destDecl.decl dest.ptr srcDecl.decl
                    src.ptr (toUint32 src.len)] := by
    rintro ⟨h1, h2, h3, h4, h5, h6⟩
    unfold VertexConvert cgoCheckPointer Native.call
    simp [h1, h2, h3, h4, h5, h6]
  have hrej : ¬ (dest.kind = Kind.Slice ∧ src.kind = Kind.Slice ∧ dest.len = src.len
            ∧ destDecl.Stride = (dest.elemSize : Int)
            ∧ dest.goPointers = false ∧ src.goPointers = false) →
          (∃ p, (VertexConvert N destDecl srcDecl dest src w).out = Outcome.panic p)
            ∧ (VertexConvert N destDecl srcDecl dest src w).world = w := by
    intro hn
    unfold VertexConvert cgoCheckPointer
    by_cases hk : dest.kind ≠ Kind.Slice ∨ src.kind ≠ Kind.Slice
    · rw [if_pos hk]
      exact ⟨⟨_, rfl⟩, rfl⟩
    · rw [if_neg hk]
      by_cases hl : dest.len ≠ src.len
      · rw [if_pos hl]
        exact ⟨⟨_, rfl⟩, rfl⟩
      · rw [if_neg hl]
        by_cases hs : destDecl.Stride ≠ (dest.elemSize : Int)
        · rw [if_pos hs]
          exact ⟨⟨_, rfl⟩, rfl⟩
        · rw [if_neg hs]
          have hk1 : dest.kind = Kind.Slice := by
            by_contra hc
            exact hk (Or.inl hc)
          have hk2 : src.kind = Kind.Slice := by
            by_contra hc
            exact hk (Or.inr hc)
          have hl2 : dest.len = src.len := by
            by_contra hc
            exact hl hc
          have hs2 : destDecl.Stride = (dest.elemSize : Int) := by
            by_contra hc
            exact hs hc
          cases hd : dest.goPointers
          · cases hsr : src.goPointers
            · exact absurd ⟨hk1, hk2, hl2, hs2, hd, hsr⟩ hn
            · simp
          · simp
  refine ⟨⟨?_, fun h => ⟨_, (hacc h).2⟩⟩, hrej, ?_⟩
  · rintro ⟨c, hc⟩
    by_contra hn
    rw [(hrej hn).2] at hc
    exact trace_append_singleton_ne w.trace c hc
  · intro h
    refine ⟨(hacc h).1, (hacc h).2, ?_, fun hlt => toUint32_natCast_of_lt src.len hlt⟩
    obtain ⟨_, _, h3, h4, _, _⟩ := h
    rw [h4, h3]
    push_cast
    ring

/-- The amended C10 statement applied to an accepted call on three vertices. -/
theorem VertexConvert_native_call_iff_witness :
    (VertexConvert sampleNative (declOfStride 16) (declOfStride 12) (sliceValue 8192 3 16)
        (sliceValue 4096 3 12) World.empty).out = Outcome.ok ()
      ∧ (VertexConvert sampleNative (declOfStride 16) (declOfStride 12) (sliceValue 8192 3 16)
          (sliceValue 4096 3 12) World.empty).world.trace
          = [NativeCall.bgfx_vertex_convert (declOfStride 16).decl 8192 (declOfStride 12).decl
              4096 3] :=
  have h := (VertexConvert_native_call_iff sampleNative (declOfStride 16) (declOfStride 12)
    (sliceValue 8192 3 16) (sliceValue 4096 3 12) World.empty).2.2
    ⟨rfl, rfl, rfl, by decide, rfl, rfl⟩
  ⟨h.1, by rw [h.2.1]; decide⟩

end bgfx
